import Mathlib

/-!
Shallow embedding of the vistra-director repository core:
PTZ correction and executors (src/film-director/ptz.py), the polling task
state machine (src/film-director/ptz.py `_polling_loop`), the shared-memory
frame IPC (src/poc/WebRTCMotionDetection/main.py `FramePublisher` and
src/poc/ObjectCrop/main.py `FrameSubscriber`), and the IoU object tracker
(src/poc/ObjectCrop/main.py `ObjectTracker`).

Python floats are modelled as rationals; Python int truncation as
truncation toward zero; the shared-memory byte regions as structured
regions (lists of byte values and detection tuples).
-/

namespace Vistra

/-- PTZ correction configuration (ptz.py `PTZCorrection` dataclass). -/
structure PTZCorrection where
  swap_pan_tilt : Bool := false
  invert_pan : Bool := false
  invert_tilt : Bool := false
deriving Repr, DecidableEq

/-- ptz.py `apply_ptz_correction` (lines 60-72): invert pan, invert tilt,
then swap pan/tilt. Used by `_execute_absolute_move` for positions. -/
def apply_ptz_correction (c : PTZCorrection) (pan tilt : ℚ) : ℚ × ℚ :=
  let p1 := if c.invert_pan then -pan else pan
  let t1 := if c.invert_tilt then -tilt else tilt
  if c.swap_pan_tilt then (t1, p1) else (p1, t1)

/-- Delta correction inlined in ptz.py `_execute_relative_move`
(lines 662-669): swap pan/tilt first, then invert pan, then invert tilt. -/
def relativeDeltaCorrection (c : PTZCorrection) (pan_delta tilt_delta : ℚ) :
    ℚ × ℚ :=
  let s := if c.swap_pan_tilt then (tilt_delta, pan_delta)
           else (pan_delta, tilt_delta)
  let p := if c.invert_pan then -s.1 else s.1
  let t := if c.invert_tilt then -s.2 else s.2
  (p, t)

/-- Velocity correction inlined in ptz.py `_execute_continuous_move`
(lines 723-730): swap pan/tilt first, then invert pan, then invert tilt. -/
def continuousVelocityCorrection (c : PTZCorrection)
    (pan_velocity tilt_velocity : ℚ) : ℚ × ℚ :=
  let s := if c.swap_pan_tilt then (tilt_velocity, pan_velocity)
           else (pan_velocity, tilt_velocity)
  let p := if c.invert_pan then -s.1 else s.1
  let t := if c.invert_tilt then -s.2 else s.2
  (p, t)

/-- C1 counterexample configuration: swap with a single inversion. -/
def cexCorrection : PTZCorrection :=
  { swap_pan_tilt := true, invert_pan := true, invert_tilt := false }

/-- Python `int()` on a float: truncation toward zero. -/
def pyInt (q : ℚ) : ℤ := if 0 ≤ q then ⌊q⌋ else ⌈q⌉

/-- Servo angle computation `max(0, min(180, int(v + 90)))` from ptz.py
(lines 632-633, 692-693, 763-764). -/
def servoAngle (v : ℚ) : ℤ := max 0 (min 180 (pyInt (v + 90)))

/-- Modelled from the spec: `clamp(round(pan + 90), 0, 180)` with
round-to-nearest, stated for comparison with the code's `servoAngle`. -/
def specServoAngle (v : ℚ) : ℤ := max 0 (min 180 (round (v + 90)))

/-- `cinematography_pb2.PTZParameters`; proto3 fields default to 0. -/
structure PTZParameters where
  pan : ℚ := 0
  tilt : ℚ := 0
  zoom : ℚ := 0
  pan_speed : ℚ := 0
  tilt_speed : ℚ := 0
  zoom_speed : ℚ := 0
deriving Repr, DecidableEq

/-- Speed payload of absolute/relative move commands. -/
structure SpeedParams where
  pan_speed : ℚ
  tilt_speed : ℚ
  zoom_speed : ℚ
deriving Repr, DecidableEq

/-- Normalized position payload of an absolute move command. -/
structure Position3 where
  x : ℚ
  y : ℚ
  z : ℚ
deriving Repr, DecidableEq

/-- Speed assignment shared by `_execute_absolute_move` (ptz.py 615-622)
and `_execute_relative_move` (675-682): swap the paired speeds when
`swap_pan_tilt` is set. -/
def withSpeed (c : PTZCorrection) (ptz : PTZParameters)
    (sp : Option SpeedParams) : PTZParameters :=
  match sp with
  | none => ptz
  | some s =>
      let ps := if c.swap_pan_tilt then s.tilt_speed else s.pan_speed
      let ts := if c.swap_pan_tilt then s.pan_speed else s.tilt_speed
      { ptz with pan_speed := ps, tilt_speed := ts, zoom_speed := s.zoom_speed }

/-- ptz.py `_execute_absolute_move` (591-639), hardware path: commit the
corrected target and issue one motor command. Returns the committed PTZ
state and the list of motor commands issued. -/
def executeAbsoluteMove (c : PTZCorrection) (pos : Position3)
    (sp : Option SpeedParams) : PTZParameters × List (ℤ × ℤ) :=
  let pt := apply_ptz_correction c (pos.x * 180) (pos.y * 90)
  let base : PTZParameters := { pan := pt.1, tilt := pt.2, zoom := pos.z }
  let ptz := withSpeed c base sp
  (ptz, [(servoAngle ptz.pan, servoAngle ptz.tilt)])

/-- ptz.py `_execute_relative_move` (642-699), hardware path: add the
corrected deltas to the current PTZ (no clamping in the code) and issue one
motor command. -/
def executeRelativeMove (c : PTZCorrection) (last : Option PTZParameters)
    (pan_delta tilt_delta zoom_delta : ℚ) (sp : Option SpeedParams) :
    PTZParameters × List (ℤ × ℤ) :=
  let base := last.getD {}
  let d := relativeDeltaCorrection c pan_delta tilt_delta
  let moved := { base with pan := base.pan + d.1, tilt := base.tilt + d.2,
                           zoom := base.zoom + zoom_delta }
  let ptz := withSpeed c moved sp
  (ptz, [(servoAngle ptz.pan, servoAngle ptz.tilt)])

/-- `step_interval = 0.05` seconds (ptz.py line 737). -/
def stepInterval : ℚ := 5 / 100

/-- `max(lo, min(hi, q))` clamping as written in ptz.py lines 749-751. -/
def clampQ (lo hi q : ℚ) : ℚ := max lo (min hi q)

/-- One integration sub-step of ptz.py `_execute_continuous_move`
(lines 745-751): integrate the (already corrected) velocities and clamp
each axis into its range before committing. -/
def continuousMoveStep (pan_velocity tilt_velocity zoom_velocity : ℚ)
    (ptz : PTZParameters) : PTZParameters :=
  { ptz with
    pan := clampQ (-180) 180 (ptz.pan + pan_velocity * stepInterval * 10),
    tilt := clampQ (-90) 90 (ptz.tilt + tilt_velocity * stepInterval * 10),
    zoom := clampQ 0 1 (ptz.zoom + zoom_velocity * stepInterval) }

/-- Loop prologue of `_execute_continuous_move` (719-734): copy the last
PTZ, correct the velocities and store their magnitudes as speeds. -/
def continuousMoveInit (c : PTZCorrection) (last : Option PTZParameters)
    (pan_velocity tilt_velocity zoom_velocity : ℚ) :
    PTZParameters × ℚ × ℚ :=
  let v := continuousVelocityCorrection c pan_velocity tilt_velocity
  ({ last.getD {} with pan_speed := |v.1|, tilt_speed := |v.2|,
                       zoom_speed := |zoom_velocity| }, v)

/-- PTZ semantic ranges: pan in [-180, 180], tilt in [-90, 90],
zoom in [0, 1]. -/
def ptzInRange (p : PTZParameters) : Prop :=
  -180 ≤ p.pan ∧ p.pan ≤ 180 ∧ -90 ≤ p.tilt ∧ p.tilt ≤ 90 ∧
  0 ≤ p.zoom ∧ p.zoom ≤ 1

/-- `ptz_service_pb2.DeviceStatus` values used by the polling loop. -/
inductive DeviceStatus where
  | idle
  | executing
deriving Repr, DecidableEq

/-- The polling-loop state held in module globals of ptz.py
(lines 38-43): `_executing_task_id`, `_completed_task_id`,
`_device_status`, `_interrupt_requested`. -/
structure TaskSM where
  executing_task_id : String := ""
  completed_task_id : String := ""
  device_status : DeviceStatus := .idle
  interrupt_requested : Bool := false
deriving Repr, DecidableEq

/-- The part of a `PollingResponse` the state machine reads: the
interrupt flag and the task id of `current_command` when present. -/
structure PollingResponse where
  interrupt : Bool
  current_command : Option String
deriving Repr, DecidableEq

/-- Interrupt handling in `_polling_loop` (ptz.py 440-448): set
`interrupt_requested`; if a task is executing, clear it and go IDLE. -/
def handleInterrupt (sm : TaskSM) (intr : Bool) : TaskSM :=
  if intr then
    if sm.executing_task_id ≠ "" then
      { sm with interrupt_requested := true, executing_task_id := "",
                device_status := .idle }
    else { sm with interrupt_requested := true }
  else sm

/-- Task acceptance in `_polling_loop` (ptz.py 459-462): record the task
id and transition to EXECUTING before running the executor. -/
def acceptTask (sm : TaskSM) (tid : String) : TaskSM :=
  { sm with executing_task_id := tid, device_status := .executing }

/-- Post-executor bookkeeping in `_polling_loop` (ptz.py 466-473):
`completed_task_id` is set only when the executor reported success; the
executing id is cleared and the status returns to IDLE either way. -/
def finishTask (sm : TaskSM) (tid : String) (success : Bool) : TaskSM :=
  { sm with
    completed_task_id := if success then tid else sm.completed_task_id,
    executing_task_id := "",
    device_status := .idle }

/-- One polling-loop iteration after a successful `polling` RPC
(ptz.py 438-473): clear `completed_task_id`, handle the interrupt flag,
then accept and run a non-empty `current_command` whose id differs from
the executing one. The executor outcome is abstracted as `success`. -/
def pollStep (sm : TaskSM) (resp : PollingResponse) (success : Bool) :
    TaskSM :=
  match resp.current_command with
  | none => handleInterrupt { sm with completed_task_id := "" } resp.interrupt
  | some tid =>
      if tid ≠ "" ∧ tid ≠ (handleInterrupt
          { sm with completed_task_id := "" } resp.interrupt).executing_task_id
      then
        finishTask (acceptTask (handleInterrupt
          { sm with completed_task_id := "" } resp.interrupt) tid) tid success
      else handleInterrupt { sm with completed_task_id := "" } resp.interrupt

/-- Task SM invariant: EXECUTING iff a non-empty executing task id. -/
def smInvariant (sm : TaskSM) : Prop :=
  sm.device_status = DeviceStatus.executing ↔ sm.executing_task_id ≠ ""

/-- Shared-memory constants, identical in
src/poc/WebRTCMotionDetection/main.py and src/poc/ObjectCrop/main.py. -/
def MAX_DETECTIONS : ℕ := 100

/-- `MAX_FRAME_SIZE = 1920 * 1080 * 3`. -/
def MAX_FRAME_SIZE : ℕ := 1920 * 1080 * 3

/-- One packed detection tuple `(x1, y1, x2, y2, class_id, confidence)` of
the shared-memory detection array. -/
structure DetTuple where
  x1 : ℕ
  y1 : ℕ
  x2 : ℕ
  y2 : ℕ
  class_id : ℕ
  confidence : ℚ
deriving Repr, DecidableEq

/-- A BGR video frame: numpy shape `(height, width, channels)` plus its
row-major byte string `frame.tobytes()` (bytes as naturals). -/
structure VideoFrame where
  height : ℕ
  width : ℕ
  channels : ℕ
  data : List ℕ
deriving Repr, DecidableEq

/-- The shared-memory slot at the granularity the two programs read and
write it: the metadata fields, the MAX_DETECTIONS-entry detection region
and the MAX_FRAME_SIZE-byte frame region. -/
structure Slot where
  width : ℕ
  height : ℕ
  channels : ℕ
  timestamp : ℚ
  sequence : ℕ
  num_detections : ℕ
  detRegion : List DetTuple
  frameRegion : List ℕ
deriving Repr, DecidableEq

/-- Publisher-side state: the monotonically increasing sequence counter. -/
structure PubState where
  sequence : ℕ
deriving Repr, DecidableEq

/-- Subscriber-side state: `self.last_sequence`, initialized to 0. -/
structure SubState where
  last_sequence : ℕ
deriving Repr, DecidableEq

/-- `FramePublisher.publish` (WebRTCMotionDetection/main.py 94-149): drop
the publication when the frame is oversized, otherwise increment the
sequence and write metadata, the first `min(len(detections), MAX)`
detections and the frame bytes; bytes of the regions beyond what is
written keep their old contents. -/
def FramePublisher.publish (pub : PubState) (slot : Slot)
    (frame : VideoFrame) (dets : List DetTuple) (timestamp : ℚ) :
    PubState × Slot :=
  if frame.height * frame.width * frame.channels > MAX_FRAME_SIZE then
    (pub, slot)
  else
    ({ sequence := pub.sequence + 1 },
     { width := frame.width,
       height := frame.height,
       channels := frame.channels,
       timestamp := timestamp,
       sequence := pub.sequence + 1,
       num_detections := min dets.length MAX_DETECTIONS,
       detRegion := dets.take (min dets.length MAX_DETECTIONS) ++
         slot.detRegion.drop (min dets.length MAX_DETECTIONS),
       frameRegion := frame.data ++
         slot.frameRegion.drop frame.data.length })

/-- `FrameSubscriber.read_frame` (ObjectCrop/main.py 312-364): return none
on an unchanged sequence; otherwise record the new sequence FIRST, then
validate the frame size (none when 0 or oversized), then copy out the
detections and frame bytes. -/
def FrameSubscriber.read_frame (sub : SubState) (slot : Slot) :
    Option (List ℕ × List DetTuple × ℚ × ℕ) × SubState :=
  if slot.sequence = sub.last_sequence then (none, sub)
  else if slot.width * slot.height * slot.channels = 0 ∨
          slot.width * slot.height * slot.channels > MAX_FRAME_SIZE then
    (none, { last_sequence := slot.sequence })
  else
    (some (slot.frameRegion.take (slot.width * slot.height * slot.channels),
           slot.detRegion.take (min slot.num_detections MAX_DETECTIONS),
           slot.timestamp, slot.sequence),
     { last_sequence := slot.sequence })

/-- `Detection` of ObjectCrop/main.py (123-178): integer pixel box,
class id and confidence. -/
structure Detection where
  x1 : ℤ
  y1 : ℤ
  x2 : ℤ
  y2 : ℤ
  class_id : ℤ
  confidence : ℚ
deriving Repr, DecidableEq

/-- `Detection.area` = (x2 - x1) * (y2 - y1). -/
def Detection.area (d : Detection) : ℤ := (d.x2 - d.x1) * (d.y2 - d.y1)

/-- `Detection.iou` (161-175): intersection over union, 0 for disjoint
boxes or a non-positive union. -/
def Detection.iou (a b : Detection) : ℚ :=
  let ix1 := max a.x1 b.x1
  let iy1 := max a.y1 b.y1
  let ix2 := min a.x2 b.x2
  let iy2 := min a.y2 b.y2
  if ix2 ≤ ix1 ∨ iy2 ≤ iy1 then 0
  else
    let inter : ℚ := (((ix2 - ix1) * (iy2 - iy1) : ℤ) : ℚ)
    let uni : ℚ := ((a.area + b.area : ℤ) : ℚ) - inter
    if 0 < uni then inter / uni else 0

/-- `TrackedObject` (181-194). -/
structure TrackedObject where
  detection : Detection
  first_seen : ℚ
  last_seen : ℚ
  track_id : ℕ
  cropped : Bool
deriving Repr, DecidableEq

/-- `ObjectTracker` (197-270); the Python dict `tracked_objects` iterates
in insertion order, modelled as a list in insertion order. -/
structure ObjectTracker where
  iou_threshold : ℚ
  timeout : ℚ
  tracked_objects : List TrackedObject
  next_track_id : ℕ
deriving Repr, DecidableEq

/-- Timeout eviction at the top of `ObjectTracker.update` (227-234):
delete entries with `timestamp - last_seen > timeout`. -/
def evictExpired (timeout now : ℚ) (l : List TrackedObject) :
    List TrackedObject :=
  l.filter (fun o => decide (now - o.last_seen ≤ timeout))

/-- The inner matching loop of `ObjectTracker.update` (240-253): scan the
tracked objects in order, skipping used ids and other classes, keeping the
first object whose IoU strictly exceeds both the threshold and the best
IoU so far (`best_iou` starts at 0.0). -/
def findBestMatch (thr : ℚ) (d : Detection) (used : List ℕ) :
    List TrackedObject → Option TrackedObject × ℚ →
    Option TrackedObject × ℚ
  | [], acc => acc
  | t :: ts, acc =>
      if t.track_id ∈ used ∨ t.detection.class_id ≠ d.class_id then
        findBestMatch thr d used ts acc
      else if Detection.iou d t.detection > thr ∧
              Detection.iou d t.detection > acc.2 then
        findBestMatch thr d used ts (some t, Detection.iou d t.detection)
      else
        findBestMatch thr d used ts acc

/-- `TrackedObject.update` applied through the dict (191-194, 257):
replace the matched object's detection and refresh `last_seen`. -/
def updateDetection (tid : ℕ) (d : Detection) (now : ℚ)
    (l : List TrackedObject) : List TrackedObject :=
  l.map (fun t => if t.track_id = tid then
    { t with detection := d, last_seen := now } else t)

/-- The per-detection body of `ObjectTracker.update` (239-268): match and
refresh, or insert a fresh track with the next id; returns the new tracked
list, next id, used ids and the emitted `(detection, track_id, is_new)`. -/
def processDetection (thr now : ℚ) (d : Detection)
    (tracked : List TrackedObject) (next_id : ℕ) (used : List ℕ) :
    List TrackedObject × ℕ × List ℕ × (Detection × ℕ × Bool) :=
  match (findBestMatch thr d used tracked (none, 0)).1 with
  | some t =>
      (updateDetection t.track_id d now tracked, next_id,
       used ++ [t.track_id], (d, t.track_id, false))
  | none =>
      (tracked ++ [{ detection := d, first_seen := now, last_seen := now,
                     track_id := next_id, cropped := false }],
       next_id + 1, used ++ [next_id], (d, next_id, true))

/-- Fold of `processDetection` over the detections in input order. -/
def processAll (thr now : ℚ) :
    List Detection → List TrackedObject → ℕ → List ℕ →
    List TrackedObject × ℕ × List (Detection × ℕ × Bool)
  | [], tracked, nid, _ => (tracked, nid, [])
  | d :: ds, tracked, nid, used =>
      let r := processDetection thr now d tracked nid used
      let rest := processAll thr now ds r.1 r.2.1 r.2.2.1
      (rest.1, rest.2.1, r.2.2.2 :: rest.2.2)

/-- `ObjectTracker.update` (211-270): evict expired objects, then match
each detection greedily in input order. -/
def ObjectTracker.update (tr : ObjectTracker) (detections : List Detection)
    (now : ℚ) : ObjectTracker × List (Detection × ℕ × Bool) :=
  let r := processAll tr.iou_threshold now detections
    (evictExpired tr.timeout now tr.tracked_objects) tr.next_track_id []
  ({ tr with tracked_objects := r.1, next_track_id := r.2.1 }, r.2.2)

/-- C6 counterexample tracker: one tracked "class 0" unit box with
`iou_threshold = 1/2`. -/
def cexTracker : ObjectTracker :=
  { iou_threshold := 1/2, timeout := 2,
    tracked_objects := [⟨⟨0, 0, 1, 1, 0, 1⟩, 0, 0, 0, false⟩],
    next_track_id := 1 }

/-- C1: the delta/velocity correction of relative and continuous moves does
NOT always compute the same result as the position correction of absolute
moves: with swap_pan_tilt set and exactly one inversion flag set (either
one), the two paths disagree on input (1, 2). -/
theorem C1_counterexample :
    (relativeDeltaCorrection cexCorrection 1 2 = (-2, 1) ∧
     apply_ptz_correction cexCorrection 1 2 = (2, -1) ∧
     relativeDeltaCorrection cexCorrection 1 2 ≠
       apply_ptz_correction cexCorrection 1 2) ∧
    (relativeDeltaCorrection ⟨true, false, true⟩ 1 2 = (2, -1) ∧
     apply_ptz_correction ⟨true, false, true⟩ 1 2 = (-2, 1) ∧
     relativeDeltaCorrection ⟨true, false, true⟩ 1 2 ≠
       apply_ptz_correction ⟨true, false, true⟩ 1 2) := by
  refine ⟨⟨rfl, rfl, ?_⟩, ⟨rfl, rfl, ?_⟩⟩ <;> decide

/-- C1 (amended): positions are corrected by invert_pan, then invert_tilt,
then swap_pan_tilt, while deltas and velocities are corrected by
swap_pan_tilt first and then invert_pan, invert_tilt; the velocity
correction always equals the delta correction, and the delta correction
agrees with the position correction on all inputs exactly when
swap_pan_tilt is off or the two inversion flags are equal. -/
theorem C1_correction_paths :
    (∀ (c : PTZCorrection) (p t : ℚ),
      continuousVelocityCorrection c p t = relativeDeltaCorrection c p t) ∧
    (∀ c : PTZCorrection,
      (∀ p t : ℚ,
        relativeDeltaCorrection c p t = apply_ptz_correction c p t) ↔
      (c.swap_pan_tilt = false ∨ c.invert_pan = c.invert_tilt)) := by
  constructor
  · intro c p t
    rfl
  · rintro ⟨sw, ip, it⟩
    constructor
    · intro hall
      by_contra hbad
      push_neg at hbad
      obtain ⟨hsw, hne⟩ := hbad
      have h12 := hall 1 2
      cases sw
      · exact hsw rfl
      · cases ip <;> cases it
        · exact hne rfl
        · norm_num [relativeDeltaCorrection, apply_ptz_correction,
            Prod.ext_iff] at h12
        · norm_num [relativeDeltaCorrection, apply_ptz_correction,
            Prod.ext_iff] at h12
        · exact hne rfl
    · intro hcond p t
      cases sw <;> cases ip <;> cases it <;>
        simp_all [relativeDeltaCorrection, apply_ptz_correction]

/-- C1 witness: the amended agreement at a concrete configuration, through
the backward direction of the biconditional. -/
theorem C1_correction_paths_witness :
    (PTZCorrection.mk false true false).swap_pan_tilt = false ∧
    relativeDeltaCorrection (PTZCorrection.mk false true false) 3 4 =
      apply_ptz_correction (PTZCorrection.mk false true false) 3 4 :=
  ⟨rfl, (C1_correction_paths.2 (PTZCorrection.mk false true false)).mpr
    (Or.inl rfl) 3 4⟩

/-- A clamp `max lo (min hi q)` lands in `[lo, hi]` when `lo ≤ hi`. -/
theorem clampQ_mem (lo hi q : ℚ) (h : lo ≤ hi) :
    lo ≤ clampQ lo hi q ∧ clampQ lo hi q ≤ hi := by
  unfold clampQ
  exact ⟨le_max_left _ _, max_le h (min_le_left _ _)⟩

/-- C3 counterexample: a relative move of +200 degrees of pan from the
all-zero state commits pan = 200, which is outside [-180, 180]; the code
commits the sums without clamping. -/
theorem C3_counterexample :
    (executeRelativeMove {} none 200 0 0 none).1.pan = 200 ∧
    ¬ ptzInRange (executeRelativeMove {} none 200 0 0 none).1 := by
  have hpan : (executeRelativeMove {} none 200 0 0 none).1.pan = 200 := by
    norm_num [executeRelativeMove, relativeDeltaCorrection, withSpeed]
  refine ⟨hpan, fun h => ?_⟩
  have hp : (executeRelativeMove {} none 200 0 0 none).1.pan ≤ 180 := h.2.1
  rw [hpan] at hp
  norm_num at hp

/-- The speed assignment never touches the committed pan, tilt or zoom. -/
theorem withSpeed_axes (c : PTZCorrection) (ptz : PTZParameters)
    (sp : Option SpeedParams) :
    (withSpeed c ptz sp).pan = ptz.pan ∧
    (withSpeed c ptz sp).tilt = ptz.tilt ∧
    (withSpeed c ptz sp).zoom = ptz.zoom := by
  cases sp <;> exact ⟨rfl, rfl, rfl⟩

/-- C3 (amended): every continuous-move sub-step clamps the committed PTZ
into range, but a relative move (with or without a speed payload) commits
the corrected deltas added to the current PTZ without clamping, and an
absolute move likewise commits the corrected target and the raw zoom
unclamped. -/
theorem C3_clamping :
    (∀ (pv tv zv : ℚ) (ptz : PTZParameters),
      ptzInRange (continuousMoveStep pv tv zv ptz)) ∧
    (∀ (c : PTZCorrection) (last : Option PTZParameters) (pd td zd : ℚ)
      (sp : Option SpeedParams),
      (executeRelativeMove c last pd td zd sp).1.pan =
        (last.getD {}).pan + (relativeDeltaCorrection c pd td).1 ∧
      (executeRelativeMove c last pd td zd sp).1.tilt =
        (last.getD {}).tilt + (relativeDeltaCorrection c pd td).2 ∧
      (executeRelativeMove c last pd td zd sp).1.zoom =
        (last.getD {}).zoom + zd) ∧
    (∀ (c : PTZCorrection) (pos : Position3) (sp : Option SpeedParams),
      (executeAbsoluteMove c pos sp).1.pan =
        (apply_ptz_correction c (pos.x * 180) (pos.y * 90)).1 ∧
      (executeAbsoluteMove c pos sp).1.tilt =
        (apply_ptz_correction c (pos.x * 180) (pos.y * 90)).2 ∧
      (executeAbsoluteMove c pos sp).1.zoom = pos.z) := by
  refine ⟨?_, ?_, ?_⟩
  · intro pv tv zv ptz
    have h1 := clampQ_mem (-180) 180 (ptz.pan + pv * stepInterval * 10)
      (by norm_num)
    have h2 := clampQ_mem (-90) 90 (ptz.tilt + tv * stepInterval * 10)
      (by norm_num)
    have h3 := clampQ_mem 0 1 (ptz.zoom + zv * stepInterval) (by norm_num)
    exact ⟨h1.1, h1.2, h2.1, h2.2, h3.1, h3.2⟩
  · intro c last pd td zd sp
    obtain ⟨hp, ht, hz⟩ := withSpeed_axes c
      { (last.getD {}) with
        pan := (last.getD {}).pan + (relativeDeltaCorrection c pd td).1,
        tilt := (last.getD {}).tilt + (relativeDeltaCorrection c pd td).2,
        zoom := (last.getD {}).zoom + zd } sp
    exact ⟨hp, ht, hz⟩
  · intro c pos sp
    obtain ⟨hp, ht, hz⟩ := withSpeed_axes c
      { pan := (apply_ptz_correction c (pos.x * 180) (pos.y * 90)).1,
        tilt := (apply_ptz_correction c (pos.x * 180) (pos.y * 90)).2,
        zoom := pos.z } sp
    exact ⟨hp, ht, hz⟩

/-- C8 counterexample: with no correction and normalized x = 7/1800 the
committed pan is 0.7, the code commands pan angle `int(90.7) = 90`
(truncation), while the claimed `clamp(round(pan + 90), 0, 180)` is 91. -/
theorem C8_counterexample :
    (executeAbsoluteMove {} ⟨7/1800, 0, 0⟩ none).1.pan = 7/10 ∧
    (executeAbsoluteMove {} ⟨7/1800, 0, 0⟩ none).2 = [(90, 90)] ∧
    specServoAngle (7/10) = 91 := by
  refine ⟨by norm_num [executeAbsoluteMove, apply_ptz_correction, withSpeed],
          ?_, ?_⟩
  · norm_num [executeAbsoluteMove, apply_ptz_correction, withSpeed,
      servoAngle, pyInt]
  · norm_num [specServoAngle, round_eq]

/-- C8 (amended): every absolute move drives the motor exactly once, with
pan_angle = clamp(trunc(pan + 90), 0, 180) and tilt_angle =
clamp(trunc(tilt + 90), 0, 180) computed from the corrected committed
values, where trunc is Python int() truncation toward zero (not
round-to-nearest); a saturating pan of +100 degrees or more still yields
the commanded angle 180. -/
theorem C8_motor_command :
    (∀ (c : PTZCorrection) (pos : Position3) (sp : Option SpeedParams),
      (executeAbsoluteMove c pos sp).2 =
        [(servoAngle (executeAbsoluteMove c pos sp).1.pan,
          servoAngle (executeAbsoluteMove c pos sp).1.tilt)] ∧
      (executeAbsoluteMove c pos sp).2.length = 1) ∧
    (∀ p : ℚ, 90 ≤ p → servoAngle p = 180) := by
  constructor
  · intro c pos sp
    exact ⟨rfl, rfl⟩
  · intro p hp
    have h0 : (0:ℚ) ≤ p + 90 := by linarith
    have h180 : (180:ℤ) ≤ pyInt (p + 90) := by
      simp only [pyInt, if_pos h0]
      exact Int.le_floor.mpr (by push_cast; linarith)
    have hmin : min (180:ℤ) (pyInt (p + 90)) = 180 := min_eq_left h180
    simp only [servoAngle, hmin]
    norm_num

/-- C8 witness: saturation at pan = +100 degrees. -/
theorem C8_motor_command_witness :
    (90:ℚ) ≤ 100 ∧ servoAngle 100 = 180 :=
  ⟨by norm_num, C8_motor_command.2 100 (by norm_num)⟩

/-- `handleInterrupt` never touches `completed_task_id`. -/
theorem handleInterrupt_completed (sm : TaskSM) (i : Bool) :
    (handleInterrupt sm i).completed_task_id = sm.completed_task_id := by
  unfold handleInterrupt
  split
  · split <;> rfl
  · rfl

/-- C2 counterexample: a task whose executor reports failure does NOT get
its id recorded in `completed_task_id` (the code sets it only on success),
contradicting the claim that it is set regardless of success. -/
theorem C2_counterexample :
    (pollStep {} ⟨false, some "T7"⟩ false).completed_task_id = "" ∧
    (pollStep {} ⟨false, some "T7"⟩ false).completed_task_id ≠ "T7" := by
  constructor
  · rfl
  · intro h
    rw [show (pollStep {} ⟨false, some "T7"⟩ false).completed_task_id = ""
          from rfl] at h
    simp at h

/-- C2 (amended): for every task processed by the polling state machine,
after the executor returns `completed_task_id` equals the task id when the
executor reported success and stays empty on failure; in both cases
`executing_task_id` is cleared and `device_status` transitions from
EXECUTING (set at acceptance) back to IDLE. -/
theorem C2_task_completion :
    ∀ (sm : TaskSM) (resp : PollingResponse) (success : Bool)
      (tid : String),
      resp.current_command = some tid →
      tid ≠ "" →
      tid ≠ (handleInterrupt { sm with completed_task_id := "" }
              resp.interrupt).executing_task_id →
      (acceptTask (handleInterrupt { sm with completed_task_id := "" }
          resp.interrupt) tid).device_status = DeviceStatus.executing ∧
      (pollStep sm resp success).completed_task_id =
        (if success then tid else "") ∧
      (pollStep sm resp success).executing_task_id = "" ∧
      (pollStep sm resp success).device_status = DeviceStatus.idle := by
  intro sm resp success tid hcmd hne hneq
  have hc : (handleInterrupt { sm with completed_task_id := "" }
      resp.interrupt).completed_task_id = "" :=
    handleInterrupt_completed _ _
  refine ⟨rfl, ?_, ?_, ?_⟩ <;> simp only [pollStep, hcmd] <;>
    rw [if_pos ⟨hne, hneq⟩]
  · cases success <;> simp [finishTask, acceptTask, hc]
  · rfl
  · rfl

/-- C2 witness: a successful task "T7" lands in `completed_task_id`. -/
theorem C2_task_completion_witness :
    ("T7" : String) ≠ "" ∧
    (pollStep {} ⟨false, some "T7"⟩ true).completed_task_id = "T7" :=
  ⟨by decide, by
    have h := (C2_task_completion {} ⟨false, some "T7"⟩ true "T7" rfl
      (by decide) (by decide)).2.1
    simpa using h⟩

/-- C9: the invariant `EXECUTING iff executing_task_id nonempty` is
preserved by every polling-response transition: by interrupt handling, by
acceptance of a non-empty task id, and by a whole polling step. -/
theorem C9_invariant_preserved :
    ∀ (sm : TaskSM) (resp : PollingResponse) (success : Bool),
      smInvariant sm →
      smInvariant (handleInterrupt { sm with completed_task_id := "" }
        resp.interrupt) ∧
      (∀ tid : String, tid ≠ "" →
        smInvariant (acceptTask (handleInterrupt
          { sm with completed_task_id := "" } resp.interrupt) tid)) ∧
      smInvariant (pollStep sm resp success) := by
  intro sm resp success hinv
  have hbase : smInvariant ({ sm with completed_task_id := "" } : TaskSM) :=
    hinv
  have hint : ∀ (s : TaskSM) (i : Bool), smInvariant s →
      smInvariant (handleInterrupt s i) := by
    intro s i hs
    unfold handleInterrupt
    split
    · split
      · simp [smInvariant]
      · exact hs
    · exact hs
  have haccept : ∀ (s : TaskSM) (tid : String), tid ≠ "" →
      smInvariant (acceptTask s tid) := by
    intro s tid ht
    simpa [smInvariant, acceptTask] using ht
  refine ⟨hint _ _ hbase, fun tid ht => haccept _ tid ht, ?_⟩
  cases hcc : resp.current_command with
  | none =>
      simp only [pollStep, hcc]
      exact hint _ _ hbase
  | some tid =>
      simp only [pollStep, hcc]
      by_cases hcond : tid ≠ "" ∧ tid ≠ (handleInterrupt
          { sm with completed_task_id := "" } resp.interrupt).executing_task_id
      · rw [if_pos hcond]
        simp [smInvariant, finishTask, acceptTask]
      · rw [if_neg hcond]
        exact hint _ _ hbase

/-- C9 witness: the invariant after a concrete accepted-task step. -/
theorem C9_invariant_preserved_witness :
    smInvariant ({} : TaskSM) ∧
    smInvariant (pollStep {} ⟨true, some "T1"⟩ true) :=
  ⟨by simp [smInvariant],
   (C9_invariant_preserved {} ⟨true, some "T1"⟩ true
     (by simp [smInvariant])).2.2⟩

/-- C4 counterexample: a degenerate frame of width 0 (so
width·height·channels = 0, which is within MAX_FRAME) is published with a
new sequence, yet the subscriber's read returns none instead of the frame
bytes and detections. -/
theorem C4_counterexample :
    0 * 240 * 3 ≤ MAX_FRAME_SIZE ∧
    (FramePublisher.publish ⟨0⟩ ⟨0, 0, 0, 0, 0, 0, [], []⟩
      ⟨240, 0, 3, []⟩ [] 0).2.sequence = 1 ∧
    (FrameSubscriber.read_frame ⟨0⟩
      (FramePublisher.publish ⟨0⟩ ⟨0, 0, 0, 0, 0, 0, [], []⟩
        ⟨240, 0, 3, []⟩ [] 0).2).1 = none := by
  refine ⟨by norm_num [MAX_FRAME_SIZE], ?_, ?_⟩ <;>
    simp [FramePublisher.publish, FrameSubscriber.read_frame,
      MAX_FRAME_SIZE]

/-- C4 (amended): for every frame whose width·height·channels is nonzero
and at most MAX_FRAME and every detection list of length at most MAX_DET,
publishing and then reading (with last_sequence_seen differing from the
new sequence) returns bit-identical frame bytes and the same detection
tuples, and an immediately following second read returns none. -/
theorem C4_roundtrip :
    ∀ (pub : PubState) (slot : Slot) (sub : SubState) (frame : VideoFrame)
      (dets : List DetTuple) (ts : ℚ),
      frame.data.length = frame.height * frame.width * frame.channels →
      frame.height * frame.width * frame.channels ≤ MAX_FRAME_SIZE →
      0 < frame.height * frame.width * frame.channels →
      dets.length ≤ MAX_DETECTIONS →
      sub.last_sequence ≠ pub.sequence + 1 →
      (FrameSubscriber.read_frame sub
        (FramePublisher.publish pub slot frame dets ts).2).1 =
        some (frame.data, dets, ts, pub.sequence + 1) ∧
      (FrameSubscriber.read_frame
        (FrameSubscriber.read_frame sub
          (FramePublisher.publish pub slot frame dets ts).2).2
        (FramePublisher.publish pub slot frame dets ts).2).1 = none := by
  intro pub slot sub frame dets ts hlen hle hpos hdets hseq
  have hnot : ¬ frame.height * frame.width * frame.channels >
      MAX_FRAME_SIZE := not_lt.mpr hle
  have hcomm : frame.width * frame.height * frame.channels =
      frame.height * frame.width * frame.channels := by ring
  have hmin : min dets.length MAX_DETECTIONS = dets.length :=
    min_eq_left hdets
  have hvalid : ¬ (frame.width * frame.height * frame.channels = 0 ∨
      frame.width * frame.height * frame.channels > MAX_FRAME_SIZE) := by
    rw [hcomm]
    rintro (h0 | hg)
    · exact absurd h0 hpos.ne'
    · exact hnot hg
  have hframeEq : (frame.data ++
      slot.frameRegion.drop frame.data.length).take
        (frame.width * frame.height * frame.channels) = frame.data := by
    rw [hcomm, ← hlen]
    exact List.take_left _ _
  have hdetsEq : (dets.take (min dets.length MAX_DETECTIONS) ++
      slot.detRegion.drop (min dets.length MAX_DETECTIONS)).take
        (min (min dets.length MAX_DETECTIONS) MAX_DETECTIONS) = dets := by
    simp only [hmin, List.take_length]
    exact List.take_left dets (slot.detRegion.drop dets.length)
  simp only [FramePublisher.publish, if_neg hnot]
  simp only [FrameSubscriber.read_frame]
  rw [if_neg (Ne.symm hseq), if_neg hvalid]
  constructor
  · simp [hframeEq, hdetsEq, hdets]
  · simp [FrameSubscriber.read_frame]

/-- C4 witness: a concrete 1x2x3 frame with one detection round-trips. -/
theorem C4_roundtrip_witness :
    (FrameSubscriber.read_frame ⟨0⟩
      (FramePublisher.publish ⟨0⟩ ⟨0, 0, 0, 0, 0, 0, [], [9, 9, 9]⟩
        ⟨1, 2, 3, [10, 20, 30, 40, 50, 60]⟩ [⟨1, 2, 3, 4, 0, 1/2⟩] 7).2).1 =
      some ([10, 20, 30, 40, 50, 60], [⟨1, 2, 3, 4, 0, 1/2⟩], 7, 1) :=
  (C4_roundtrip ⟨0⟩ ⟨0, 0, 0, 0, 0, 0, [], [9, 9, 9]⟩ ⟨0⟩
    ⟨1, 2, 3, [10, 20, 30, 40, 50, 60]⟩ [⟨1, 2, 3, 4, 0, 1/2⟩] 7
    (by norm_num) (by norm_num [MAX_FRAME_SIZE]) (by norm_num)
    (by norm_num [MAX_DETECTIONS]) (by norm_num)).1

/-- C5: publishing a frame with width·height·channels > MAX_FRAME leaves
the publisher state (sequence counter) and the whole slot (metadata,
detection region, frame region) unchanged, so a subscriber that has seen
the current sequence observes no new publication. -/
theorem C5_oversized_publish_dropped :
    ∀ (pub : PubState) (slot : Slot) (frame : VideoFrame)
      (dets : List DetTuple) (ts : ℚ),
      frame.height * frame.width * frame.channels > MAX_FRAME_SIZE →
      FramePublisher.publish pub slot frame dets ts = (pub, slot) ∧
      (∀ sub : SubState, sub.last_sequence = slot.sequence →
        (FrameSubscriber.read_frame sub
          (FramePublisher.publish pub slot frame dets ts).2).1 = none) := by
  intro pub slot frame dets ts hbig
  have hdrop : FramePublisher.publish pub slot frame dets ts =
      (pub, slot) := by
    simp [FramePublisher.publish, if_pos hbig]
  refine ⟨hdrop, fun sub hs => ?_⟩
  rw [hdrop]
  simp [FrameSubscriber.read_frame, hs]

/-- C5 witness: a 1081-row full-HD-width frame is dropped unchanged. -/
theorem C5_oversized_publish_dropped_witness :
    (1081 * 1920 * 3 > MAX_FRAME_SIZE) ∧
    FramePublisher.publish ⟨5⟩ ⟨0, 0, 0, 0, 5, 0, [], []⟩
      ⟨1081, 1920, 3, []⟩ [] 0 = (⟨5⟩, ⟨0, 0, 0, 0, 5, 0, [], []⟩) :=
  ⟨by norm_num [MAX_FRAME_SIZE],
   (C5_oversized_publish_dropped ⟨5⟩ ⟨0, 0, 0, 0, 5, 0, [], []⟩
     ⟨1081, 1920, 3, []⟩ [] 0 (by norm_num [MAX_FRAME_SIZE])).1⟩

/-- C10: when the subscriber observes a changed sequence whose metadata
fails the size validation (product 0 or oversized), it returns none but
has already updated last_sequence to the new sequence, so the publication
is consumed and a later read of the unchanged slot returns none. -/
theorem C10_invalid_read_consumed :
    ∀ (sub : SubState) (slot : Slot),
      slot.sequence ≠ sub.last_sequence →
      (slot.width * slot.height * slot.channels = 0 ∨
       slot.width * slot.height * slot.channels > MAX_FRAME_SIZE) →
      (FrameSubscriber.read_frame sub slot).1 = none ∧
      (FrameSubscriber.read_frame sub slot).2.last_sequence =
        slot.sequence ∧
      (FrameSubscriber.read_frame
        (FrameSubscriber.read_frame sub slot).2 slot).1 = none := by
  intro sub slot hne hbad
  have h1 : FrameSubscriber.read_frame sub slot =
      (none, { last_sequence := slot.sequence }) := by
    unfold FrameSubscriber.read_frame
    rw [if_neg hne, if_pos hbad]
  refine ⟨by rw [h1], by rw [h1], ?_⟩
  rw [h1]
  unfold FrameSubscriber.read_frame
  rw [if_pos rfl]

/-- Every tracked object produced by `processDetection` has `last_seen`
at least `lo` whenever the inputs do and `lo ≤ now`. -/
theorem processDetection_last_seen (thr now lo : ℚ) (hlo : lo ≤ now)
    (d : Detection) (tracked : List TrackedObject) (nid : ℕ)
    (used : List ℕ) (h : ∀ o ∈ tracked, lo ≤ o.last_seen) :
    ∀ o ∈ (processDetection thr now d tracked nid used).1,
      lo ≤ o.last_seen := by
  intro o ho
  rcases hfb : (findBestMatch thr d used tracked (none, 0)).1 with _ | t
  · simp only [processDetection, hfb] at ho
    rcases List.mem_append.mp ho with h1 | h2
    · exact h o h1
    · rw [List.mem_singleton] at h2
      rw [h2]
      exact hlo
  · simp only [processDetection, hfb, updateDetection, List.mem_map] at ho
    obtain ⟨a, ha, heq⟩ := ho
    by_cases hid : a.track_id = t.track_id
    · rw [if_pos hid] at heq
      rw [← heq]
      exact hlo
    · rw [if_neg hid] at heq
      rw [← heq]
      exact h a ha
/-- Every tracked object produced by `processAll` has `last_seen` at least
`lo` whenever the inputs do and `lo ≤ now`. -/
theorem processAll_last_seen (thr now lo : ℚ) (hlo : lo ≤ now) :
    ∀ (ds : List Detection) (tracked : List TrackedObject) (nid : ℕ)
      (used : List ℕ),
      (∀ o ∈ tracked, lo ≤ o.last_seen) →
      ∀ o ∈ (processAll thr now ds tracked nid used).1,
        lo ≤ o.last_seen := by
  intro ds
  induction ds with
  | nil =>
      intro tracked nid used h o ho
      exact h o ho
  | cons d rest ih =>
      intro tracked nid used h o ho
      simp only [processAll] at ho
      exact ih _ _ _
        (processDetection_last_seen thr now lo hlo d tracked nid used h)
        o ho

/-- C7: after every `ObjectTracker.update(detections, now)` with a
nonnegative timeout, no tracked entry has `last_seen < now - timeout`:
eviction removes exactly the stale entries before matching, and every
surviving matched or newly inserted entry has `last_seen = now`. -/
theorem C7_no_stale_tracked :
    ∀ (tr : ObjectTracker) (ds : List Detection) (now : ℚ),
      0 ≤ tr.timeout →
      ∀ o ∈ (ObjectTracker.update tr ds now).1.tracked_objects,
        ¬ o.last_seen < now - tr.timeout := by
  intro tr ds now ht o ho
  rw [not_lt]
  have hbase : ∀ u ∈ evictExpired tr.timeout now tr.tracked_objects,
      now - tr.timeout ≤ u.last_seen := by
    intro u hu
    have h2 := of_decide_eq_true (List.mem_filter.mp hu).2
    linarith
  have hmain := processAll_last_seen tr.iou_threshold now
    (now - tr.timeout) (by linarith) ds
    (evictExpired tr.timeout now tr.tracked_objects) tr.next_track_id []
    hbase
  exact hmain o ho

/-- C7 witness: a stale entry is gone after an update with empty input. -/
theorem C7_no_stale_tracked_witness :
    (0:ℚ) ≤ cexTracker.timeout ∧
    ∀ o ∈ (ObjectTracker.update cexTracker [] 10).1.tracked_objects,
      ¬ o.last_seen < 10 - cexTracker.timeout :=
  ⟨by norm_num [cexTracker],
   C7_no_stale_tracked cexTracker [] 10 (by norm_num [cexTracker])⟩

/-- Once the accumulator holds `(some b, bi)` and every remaining eligible
candidate has IoU at most `bi`, the scan keeps `(some b, bi)`. -/
theorem findBestMatch_keep (thr : ℚ) (d : Detection) (used : List ℕ)
    (b : TrackedObject) (bi : ℚ) :
    ∀ ts : List TrackedObject,
      (∀ u ∈ ts, u.track_id ∉ used → u.detection.class_id = d.class_id →
        Detection.iou d u.detection ≤ bi) →
      findBestMatch thr d used ts (some b, bi) = (some b, bi) := by
  intro ts
  induction ts with
  | nil =>
      intro _
      rfl
  | cons u rest ih =>
      intro h
      unfold findBestMatch
      by_cases hskip : u.track_id ∈ used ∨ u.detection.class_id ≠ d.class_id
      · rw [if_pos hskip]
        exact ih (fun v hv => h v (List.mem_cons_of_mem _ hv))
      · rw [if_neg hskip]
        push_neg at hskip
        have hle := h u (List.mem_cons_self u rest) hskip.1 hskip.2
        have hnc : ¬ (Detection.iou d u.detection > thr ∧
            Detection.iou d u.detection > bi) :=
          fun hc => absurd hc.2 (not_lt.mpr hle)
        rw [if_neg hnc]
        exact ih (fun v hv => h v (List.mem_cons_of_mem _ hv))

/-- The scan returns `t` when `t` is eligible, beats the threshold and the
current best, and strictly beats every other eligible candidate. -/
theorem findBestMatch_selects (thr : ℚ) (d : Detection) (used : List ℕ)
    (t : TrackedObject)
    (hcls : t.detection.class_id = d.class_id)
    (hused : t.track_id ∉ used)
    (hthr : Detection.iou d t.detection > thr) :
    ∀ (ts : List TrackedObject) (acc : Option TrackedObject × ℚ),
      t ∈ ts →
      acc.2 < Detection.iou d t.detection →
      (∀ u ∈ ts, u ≠ t → u.track_id ∉ used →
        u.detection.class_id = d.class_id →
        Detection.iou d u.detection < Detection.iou d t.detection) →
      (findBestMatch thr d used ts acc).1 = some t := by
  intro ts
  induction ts with
  | nil =>
      intro acc hmem
      exact absurd hmem (List.not_mem_nil t)
  | cons u rest ih =>
      intro acc hmem hacc hstrict
      by_cases hu : u = t
      · subst hu
        unfold findBestMatch
        have hskip : ¬ (u.track_id ∈ used ∨
            u.detection.class_id ≠ d.class_id) := by
          rintro (h1 | h2)
          · exact hused h1
          · exact h2 hcls
        rw [if_neg hskip, if_pos ⟨hthr, hacc⟩]
        have hbound : ∀ v ∈ rest, v.track_id ∉ used →
            v.detection.class_id = d.class_id →
            Detection.iou d v.detection ≤ Detection.iou d u.detection := by
          intro v hv hvu hvc
          by_cases hvt : v = u
          · rw [hvt]
          · exact le_of_lt
              (hstrict v (List.mem_cons_of_mem _ hv) hvt hvu hvc)
        rw [findBestMatch_keep thr d used u (Detection.iou d u.detection)
          rest hbound]
      · have hmem' : t ∈ rest := by
          rcases List.mem_cons.mp hmem with h1 | h1
          · exact absurd h1.symm hu
          · exact h1
        have hrest : ∀ v ∈ rest, v ≠ t → v.track_id ∉ used →
            v.detection.class_id = d.class_id →
            Detection.iou d v.detection < Detection.iou d t.detection :=
          fun v hv => hstrict v (List.mem_cons_of_mem _ hv)
        unfold findBestMatch
        by_cases hskip : u.track_id ∈ used ∨ u.detection.class_id ≠ d.class_id
        · rw [if_pos hskip]
          exact ih acc hmem' hacc hrest
        · rw [if_neg hskip]
          push_neg at hskip
          have hlt := hstrict u (List.mem_cons_self u rest) hu hskip.1 hskip.2
          by_cases hcond : Detection.iou d u.detection > thr ∧
              Detection.iou d u.detection > acc.2
          · rw [if_pos hcond]
            exact ih (some u, Detection.iou d u.detection) hmem' hlt hrest
          · rw [if_neg hcond]
            exact ih acc hmem' hacc hrest

/-- C6 counterexample: a detection whose IoU with the only same-class
track EQUALS the threshold (1/2) is NOT matched: the code requires
`iou > threshold` strictly, so a fresh track id 1 is allocated with
is_new = true instead of preserving track id 0. -/
theorem C6_counterexample :
    Detection.iou ⟨0, 0, 2, 1, 0, 1⟩ ⟨0, 0, 1, 1, 0, 1⟩ =
      cexTracker.iou_threshold ∧
    (ObjectTracker.update cexTracker [⟨0, 0, 2, 1, 0, 1⟩] 1).2 =
      [(⟨0, 0, 2, 1, 0, 1⟩, 1, true)] := by
  have hio : Detection.iou ⟨0, 0, 2, 1, 0, 1⟩ ⟨0, 0, 1, 1, 0, 1⟩ =
      1/2 := by
    norm_num [Detection.iou, Detection.area]
  constructor
  · rw [hio]
    rfl
  · norm_num [ObjectTracker.update, processAll, processDetection,
      findBestMatch, evictExpired, cexTracker, hio]

/-- C6 (amended): `ObjectTracker.update` is the fold of `processDetection`
(via `processAll`) over the detections in input order, starting from the
evicted track list and an empty used-id set; and at ANY point of that fold
(any surviving track list, next id and used-id set), if the next detection
d has the same class as a tracked object t whose id was not used by an
earlier detection of the update, IoU(d, t.detection) STRICTLY exceeds the
(nonnegative) iou_threshold, and it strictly exceeds the IoU of d with
every other not-yet-matched same-class track, then the tracker assigns d
to t's existing track_id and emits is_new = false — so the track id is
preserved across the two consecutive frames. -/
theorem C6_track_id_preserved :
    (∀ (tr : ObjectTracker) (ds : List Detection) (now : ℚ),
      ObjectTracker.update tr ds now =
        ({ tr with
           tracked_objects := (processAll tr.iou_threshold now ds
             (evictExpired tr.timeout now tr.tracked_objects)
             tr.next_track_id []).1,
           next_track_id := (processAll tr.iou_threshold now ds
             (evictExpired tr.timeout now tr.tracked_objects)
             tr.next_track_id []).2.1 },
         (processAll tr.iou_threshold now ds
           (evictExpired tr.timeout now tr.tracked_objects)
           tr.next_track_id []).2.2)) ∧
    (∀ (thr now : ℚ) (d : Detection) (ds : List Detection)
      (tracked : List TrackedObject) (nid : ℕ) (used : List ℕ)
      (t : TrackedObject),
      0 ≤ thr →
      t ∈ tracked →
      t.track_id ∉ used →
      t.detection.class_id = d.class_id →
      Detection.iou d t.detection > thr →
      (∀ u ∈ tracked, u ≠ t → u.track_id ∉ used →
        u.detection.class_id = d.class_id →
        Detection.iou d u.detection < Detection.iou d t.detection) →
      ((processAll thr now (d :: ds) tracked nid used).2.2).head? =
        some (d, t.track_id, false)) := by
  constructor
  · intro tr ds now
    rfl
  · intro thr now d ds tracked nid used t hthr0 hmem hused hcls hthr hstrict
    have hsel : (findBestMatch thr d used tracked (none, 0)).1 = some t :=
      findBestMatch_selects thr d used t hcls hused hthr tracked (none, 0)
        hmem (lt_of_le_of_lt hthr0 hthr) hstrict
    simp only [processAll, processDetection, hsel, List.head?]

/-- C6 witness: a concrete overlapping same-class detection, arriving
after an earlier detection already consumed track id 3, keeps its own
track id 5 with is_new = false. -/
theorem C6_track_id_preserved_witness :
    Detection.iou ⟨0, 0, 4, 5, 0, 1⟩ ⟨0, 0, 4, 4, 0, 1⟩ > (3:ℚ)/10 ∧
    ((processAll (3/10) 1 [⟨0, 0, 4, 5, 0, 1⟩]
        [⟨⟨20, 20, 30, 30, 0, 1⟩, 1, 1, 3, false⟩,
         ⟨⟨0, 0, 4, 4, 0, 1⟩, 0, 0, 5, false⟩] 6 [3]).2.2).head? =
      some (⟨0, 0, 4, 5, 0, 1⟩, 5, false) := by
  have hio : Detection.iou ⟨0, 0, 4, 5, 0, 1⟩ ⟨0, 0, 4, 4, 0, 1⟩ =
      4/5 := by
    norm_num [Detection.iou, Detection.area]
  refine ⟨by rw [hio]; norm_num, ?_⟩
  refine C6_track_id_preserved.2 (3/10) 1 ⟨0, 0, 4, 5, 0, 1⟩ []
    [⟨⟨20, 20, 30, 30, 0, 1⟩, 1, 1, 3, false⟩,
     ⟨⟨0, 0, 4, 4, 0, 1⟩, 0, 0, 5, false⟩] 6 [3]
    ⟨⟨0, 0, 4, 4, 0, 1⟩, 0, 0, 5, false⟩
    (by norm_num) (by simp) (by simp) rfl (by rw [hio]; norm_num) ?_
  intro u hu hne huse hc
  rcases List.mem_cons.mp hu with h1 | h1
  · exact absurd (by rw [h1]; simp) huse
  · rw [List.mem_singleton] at h1
    exact absurd h1 hne

/-- C10 witness: an oversized publication is consumed by the first read. -/
theorem C10_invalid_read_consumed_witness :
    ((3 : ℕ) ≠ 0 ∧ (1081 * 1920 * 3 > MAX_FRAME_SIZE)) ∧
    (FrameSubscriber.read_frame ⟨0⟩
      ⟨1081, 1920, 3, 0, 3, 0, [], []⟩).1 = none ∧
    (FrameSubscriber.read_frame ⟨0⟩
      ⟨1081, 1920, 3, 0, 3, 0, [], []⟩).2.last_sequence = 3 :=
  ⟨⟨by norm_num, by norm_num [MAX_FRAME_SIZE]⟩,
   (C10_invalid_read_consumed ⟨0⟩ ⟨1081, 1920, 3, 0, 3, 0, [], []⟩
     (by norm_num) (Or.inr (by norm_num [MAX_FRAME_SIZE]))).1,
   (C10_invalid_read_consumed ⟨0⟩ ⟨1081, 1920, 3, 0, 3, 0, [], []⟩
     (by norm_num) (Or.inr (by norm_num [MAX_FRAME_SIZE]))).2.1⟩

end Vistra
